import Mathlib

/-!
Verification development for the `reroute` HTTP router (src/src/lib.rs and
src/src/error.rs). The router stores route patterns as strings, compiles them
with the `regex` crate, matches incoming request URIs against a `RegexSet`,
and dispatches to handlers kept in a `HashMap` keyed by (route string, verb).

The embedding below models:
* the fragment of the `regex` crate the repository relies on (an AST of
  literal characters, the `\d` class, grouping, alternation and repetition;
  unanchored leftmost-first search with capture extraction; `RegexSet`
  construction as compiling every pattern);
* the hyper-side inputs (`Method`, a request carrying a path and a query
  string whose display form is path followed by query, as in
  `format!("{}", req.uri)` for an origin-form request);
* the `Router` itself: `new`, `add_route`, `add_not_found`, `finalize`
  (as `finalizeStep`, returning the `Result` together with the mutated
  router) and `Handler::handle` (as `handle`, returning which handler fired,
  with which captures, or the 405 path, the 404 path, or a panic).

Handlers are identified by natural numbers since only identity of the invoked
handler is observable to the router.
-/

namespace Reroute

/-! ### Model of the regex-crate fragment used by the router -/

/-- Abstract syntax of the regular-expression fragment: empty language,
empty string, a literal character, the `\d` class, concatenation,
alternation, Kleene star and a numbered capturing group. -/
inductive Regex where
  | void
  | eps
  | char (c : Char)
  | digit
  | concat (a b : Regex)
  | alt (a b : Regex)
  | star (a : Regex)
  | group (i : Nat) (a : Regex)
deriving DecidableEq

/-- Structural size of a regex, used to pick an adequate fuel for the
backtracking matcher. -/
def Regex.size : Regex → Nat
  | .void => 1
  | .eps => 1
  | .char _ => 1
  | .digit => 1
  | .concat a b => a.size + b.size + 1
  | .alt a b => a.size + b.size + 1
  | .star a => a.size + 1
  | .group _ a => a.size + 1

/-- Capture environment: group number paired with the matched characters.
Entries produced later in the parse are consed on the front, so a lookup
returns the most recent capture of a group (the regex crate keeps the last
iteration's capture for a group inside a repetition). -/
abbrev Caps := List (Nat × List Char)

/-- Look up the most recent capture recorded for group `i`. -/
def capLookup (g : Caps) (i : Nat) : Option (List Char) :=
  (g.find? (fun p => decide (p.1 = i))).map (fun p => p.2)

/-- Backtracking matcher. `mrun fuel r s` returns, in the priority order of
leftmost-first (PCRE-style) matching — alternation prefers its left branch,
repetition is greedy — every way `r` can match a prefix of `s`:
`(consumed, rest, captures)`. Empty repetition steps are cut to ensure
progress; `fuel` bounds the recursion depth and is chosen large enough by
`mrunFull` that it is never exhausted on the inputs considered. -/
def mrun : Nat → Regex → List Char → List (List Char × List Char × Caps)
  | 0, _, _ => []
  | _ + 1, .void, _ => []
  | _ + 1, .eps, s => [([], s, [])]
  | _ + 1, .char _, [] => []
  | _ + 1, .char c, x :: xs => if x = c then [([c], xs, [])] else []
  | _ + 1, .digit, [] => []
  | _ + 1, .digit, x :: xs => if x.isDigit then [([x], xs, [])] else []
  | f + 1, .concat a b, s =>
      (mrun f a s).flatMap (fun ra =>
        (mrun f b ra.2.1).map (fun rb =>
          (ra.1 ++ rb.1, rb.2.1, rb.2.2 ++ ra.2.2)))
  | f + 1, .alt a b, s => mrun f a s ++ mrun f b s
  | f + 1, .star a, s =>
      (((mrun f a s).filter (fun ra => !ra.1.isEmpty)).flatMap (fun ra =>
        (mrun f (.star a) ra.2.1).map (fun rs =>
          (ra.1 ++ rs.1, rs.2.1, rs.2.2 ++ ra.2.2))))
      ++ [([], s, [])]
  | f + 1, .group i a, s =>
      (mrun f a s).map (fun ra => (ra.1, ra.2.1, (i, ra.1) :: ra.2.2))

/-- Run the backtracking matcher with enough fuel for input `s`:
between two unfoldings of the same star at least one character is consumed,
so the recursion depth is bounded by `(size + 1) * (length + 1) + size + 1`. -/
def mrunFull (r : Regex) (s : List Char) : List (List Char × List Char × Caps) :=
  mrun ((r.size + 1) * (s.length + 1) + r.size + 1) r s

/-- Does `r` match the whole of `s` (an anchored match)? -/
def anchoredRun (r : Regex) (s : List Char) : Bool :=
  (mrunFull r s).any (fun t => t.2.1.isEmpty)

/-- Unanchored search, the regex crate's `is_match` and the membership test
of `RegexSet::matches`: some substring of `s` matches `r` in full. -/
def Regex.is_match (r : Regex) (s : String) : Bool :=
  s.data.tails.any (fun suf => suf.inits.any (fun p => anchoredRun r p))

/-- Leftmost-first search: scan start positions left to right; at the first
position where the matcher succeeds, take its highest-priority result.
Returns the full match together with the capture environment. -/
def leftmostRun (r : Regex) : List Char → Option (List Char × Caps)
  | [] =>
      match mrunFull r [] with
      | res :: _ => some (res.1, res.2.2)
      | [] => none
  | x :: xs =>
      match mrunFull r (x :: xs) with
      | res :: _ => some (res.1, res.2.2)
      | [] => leftmostRun r xs

/-- Largest capture-group number appearing in the regex; the regex crate
allocates one capture slot per group plus slot 0 for the full match. -/
def Regex.maxGroup : Regex → Nat
  | .void => 0
  | .eps => 0
  | .char _ => 0
  | .digit => 0
  | .concat a b => max a.maxGroup b.maxGroup
  | .alt a b => max a.maxGroup b.maxGroup
  | .star a => a.maxGroup
  | .group i a => max i a.maxGroup

/-- The regex crate's `Regex::captures`: `none` when the pattern matches
nowhere in `s`; otherwise one `Option` slot per capture group, slot 0 (the
full match) first, and `none` slots for groups that did not participate. -/
def rustCaptures (r : Regex) (s : String) : Option (List (Option String)) :=
  match leftmostRun r s.data with
  | none => none
  | some (full, caps) =>
      some (some (String.mk full) ::
        (List.range r.maxGroup).map (fun k => (capLookup caps (k + 1)).map String.mk))

/-! ### Pattern compilation (`Regex::new`)

A recursive-descent parser for the fragment: literal characters, `\d` and
escaped literals, `(...)` capturing groups numbered by order of the opening
parenthesis, `|` alternation, `*` and `+` repetition. Any other
metacharacter — in particular an unmatched `[` as in the repository's own
test pattern `/[` — is a compilation error, modelled as `none`. -/

/-- Characters that are not plain literals in a pattern. -/
def metaChars : List Char :=
  ['(', ')', '|', '*', '+', '\\', '[', ']', '{', '}', '?', '.', '^', '$']

/-- Recursive-descent pattern parser. `mode` selects the grammar level
(0 alternation, 1 concatenation, 2 repetition, anything else an atom);
`g` is the next free capture-group number. Returns the parsed regex, the
unconsumed input and the updated group counter. -/
def parseF : Nat → Nat → List Char → Nat → Option (Regex × List Char × Nat)
  | 0, _, _, _ => none
  | f + 1, 0, s, g =>
      match parseF f 1 s g with
      | none => none
      | some (r1, rest, g1) =>
          match rest with
          | '|' :: rest2 =>
              match parseF f 0 rest2 g1 with
              | none => none
              | some (r2, rest3, g2) => some (.alt r1 r2, rest3, g2)
          | _ => some (r1, rest, g1)
  | f + 1, 1, s, g =>
      match s with
      | [] => some (.eps, [], g)
      | c :: _ =>
          if c = ')' ∨ c = '|' then some (.eps, s, g)
          else
            match parseF f 2 s g with
            | none => none
            | some (r1, rest, g1) =>
                match rest with
                | [] => some (r1, [], g1)
                | ')' :: _ => some (r1, rest, g1)
                | '|' :: _ => some (r1, rest, g1)
                | _ =>
                    match parseF f 1 rest g1 with
                    | none => none
                    | some (r2, rest2, g2) => some (.concat r1 r2, rest2, g2)
  | f + 1, 2, s, g =>
      match parseF f 3 s g with
      | none => none
      | some (r, rest, g1) =>
          match rest with
          | '*' :: rest2 => some (.star r, rest2, g1)
          | '+' :: rest2 => some (.concat r (.star r), rest2, g1)
          | _ => some (r, rest, g1)
  | f + 1, _, s, g =>
      match s with
      | [] => none
      | '(' :: rest =>
          match parseF f 0 rest (g + 1) with
          | none => none
          | some (r, rest2, g1) =>
              match rest2 with
              | ')' :: rest3 => some (.group g r, rest3, g1)
              | _ => none
      | '\\' :: [] => none
      | '\\' :: c :: rest =>
          if c = 'd' then some (.digit, rest, g)
          else some (.char c, rest, g)
      | c :: rest =>
          if c ∈ metaChars then none
          else some (.char c, rest, g)

/-- `Regex::new`: compile a pattern string, `none` on a syntax error. -/
def compileRegex (s : String) : Option Regex :=
  match parseF (4 * s.length + 8) 0 s.data 1 with
  | some (r, [], _) => some r
  | _ => none

/-- `RegexSet::new`: compile every pattern of the list; fails exactly when
some pattern fails to compile. The set is modelled by the list of compiled
regexes, in registration order. -/
def compileAll : List String → Option (List Regex)
  | [] => some []
  | p :: ps =>
      match compileRegex p, compileAll ps with
      | some r, some rs => some (r :: rs)
      | _, _ => none

/-! ### Model of the hyper-side inputs -/

/-- HTTP verbs handled by the router's convenience methods (plus `Head`,
a standard verb usable through `add_route`). -/
inductive Method where
  | Options | Get | Post | Put | Delete | Patch | Head
deriving DecidableEq

/-- An origin-form request: its verb, path and query string. hyper's
`RequestUri::AbsolutePath` stores path and query as one string, and
`format!("{}", req.uri)` (line 49 of lib.rs) displays exactly that string;
`uriDisplay` reconstructs it from the two components. -/
structure Request where
  method : Method
  path : String
  query : String
deriving DecidableEq

/-- The string the router matches against: the display form of the request
URI, i.e. the path immediately followed by the query string. -/
def Request.uriDisplay (req : Request) : String :=
  req.path ++ req.query

/-! ### The Router (src/src/lib.rs) -/

/-- Key of the handler map: the route pattern string together with the verb
(`RouteInfo`, lib.rs lines 16-20). -/
structure RouteInfo where
  route : String
  verb : Method
deriving DecidableEq

/-- A not-found handler: either a user-supplied one (identified by number)
or the library's `default_not_found`. -/
inductive NotFoundFn where
  | user (n : Nat)
  | default_not_found
deriving DecidableEq

/-- `pub type Captures = Option<Vec<String>>`. -/
abbrev Captures := Option (List String)

/-- Construction-time errors (src/src/error.rs). -/
inductive RouterError where
  | TooFewRoutes
  | BadSet
deriving DecidableEq

/-- The `Router` struct. `routes` is the `RegexSet` (modelled by the list of
regexes it was compiled from), `route_list` the pattern strings in
registration order, `compiled_list` the individually compiled patterns, and
`route_map` the `HashMap` from (pattern string, verb) to the handler.
User route handlers are identified by naturals. -/
structure Router where
  not_found : Option NotFoundFn
  routes : Option (List Regex)
  route_list : List String
  compiled_list : List Regex
  route_map : List (RouteInfo × Nat)
deriving DecidableEq

/-- `HashMap::get`: the most recent insertion for the key, if any.
Insertions cons onto the front, so the first hit is the latest one. -/
def mapGet (m : List (RouteInfo × Nat)) (k : RouteInfo) : Option Nat :=
  (m.find? (fun e => decide (e.1 = k))).map (fun e => e.2)

/-- `Router::new` (lib.rs lines 76-84): everything empty, no set, no
not-found handler. -/
def Router.new : Router :=
  { not_found := none, routes := none, route_list := [],
    compiled_list := [], route_map := [] }

/-- `Router::add_route` (lib.rs lines 89-99): compile the pattern now — on
success push the compiled regex, on failure only print a message (the
compiled list is left untouched) — then push the pattern string and insert
the handler under (pattern, verb), overwriting any previous entry for that
exact key. -/
def Router.add_route (r : Router) (verb : Method) (route : String) (handler : Nat) : Router :=
  { r with
    compiled_list :=
      match compileRegex route with
      | some p => r.compiled_list ++ [p]
      | none => r.compiled_list
    route_list := r.route_list ++ [route]
    route_map := (⟨route, verb⟩, handler) :: r.route_map }

/-- `Router::add_not_found` (lib.rs lines 169-171). -/
def Router.add_not_found (r : Router) (f : NotFoundFn) : Router :=
  { r with not_found := some f }

/-- `Router::finalize` (lib.rs lines 145-166). Returns the `Result` paired
with the router in its post-call state: with zero routes it fails with
`TooFewRoutes` touching nothing; otherwise it first installs the default
not-found handler if none was set, then builds the `RegexSet` from the
pattern strings, storing it on success and failing with `BadSet` if the set
does not compile. -/
def finalizeStep (r : Router) : (Except RouterError Unit) × Router :=
  if r.route_list.length = 0 then
    (.error .TooFewRoutes, r)
  else
    let nf :=
      match r.not_found with
      | some f => some f
      | none => some NotFoundFn.default_not_found
    match compileAll r.route_list with
    | some set => (.ok (), { r with not_found := nf, routes := some set })
    | none => (.error .BadSet, { r with not_found := nf })

/-- `get_captures` (lib.rs lines 189-202): re-run the single pattern against
the URI. Result `some caps` is the `Captures` value handed to the handler
(`caps = none` when the pattern matched nowhere); result `none` models the
panic of `c.unwrap()` when some capture slot holds no match. -/
def get_captures (pattern : Regex) (uri : String) : Option Captures :=
  match rustCaptures pattern uri with
  | some slots =>
      if slots.all Option.isSome then some (some (slots.filterMap id))
      else none
  | none => some none

/-- Everything one call of `Handler::handle` can do, observably: invoke a
route handler with some captures, run the 405 path (`not_allowed`), run a
not-found handler, or panic. -/
inductive DispatchResult where
  | handler (id : Nat) (caps : Captures)
  | not_allowed
  | notFound (f : NotFoundFn)
  | panic
deriving DecidableEq

/-- `Handler::handle` for `Router` (lib.rs lines 48-70). Unwraps the
`RegexSet` (panicking when `finalize` never stored one), takes the first
index of the set that matches the displayed URI, fetches that index's
pattern string (Rust indexing: out of bounds panics), looks the handler up
under (pattern string, request verb): if present, re-extracts captures with
the compiled pattern at the same index and invokes the handler, otherwise
runs `not_allowed`; when no index matches, unwraps and runs the not-found
handler. -/
def handle (r : Router) (req : Request) : DispatchResult :=
  let uri := req.uriDisplay
  match r.routes with
  | none => .panic
  | some set =>
    match set.findIdx? (fun re => re.is_match uri) with
    | some i =>
      match r.route_list[i]? with
      | none => .panic
      | some route =>
        match mapGet r.route_map ⟨route, req.method⟩ with
        | some hid =>
          match r.compiled_list[i]? with
          | none => .panic
          | some re =>
            match get_captures re uri with
            | some caps => .handler hid caps
            | none => .panic
        | none => .not_allowed
    | none =>
      match r.not_found with
      | some f => .notFound f
      | none => .panic

/-- `Router::get` convenience method (lib.rs lines 109-112). -/
def Router.get (r : Router) (route : String) (handler : Nat) : Router :=
  r.add_route .Get route handler

/-- `Router::post` convenience method (lib.rs lines 115-118). -/
def Router.post (r : Router) (route : String) (handler : Nat) : Router :=
  r.add_route .Post route handler

/-- The central alignment invariant from the specification: the compiled
pattern list is the element-wise compilation of the pattern-string list
(so both have the same length and element `i` of each describes the same
logical route). -/
def aligned (r : Router) : Prop :=
  compileAll r.route_list = some r.compiled_list

/-! ### Auxiliary lemmas -/

deriving instance DecidableEq for Except

theorem compileAll_snoc (l : List String) (x : String) :
    compileAll (l ++ [x]) =
      match compileAll l, compileRegex x with
      | some a, some rx => some (a ++ [rx])
      | _, _ => none := by
  induction l with
  | nil => cases hx : compileRegex x <;> simp [compileAll, hx]
  | cons y l ih =>
      cases hy : compileRegex y <;> cases hl : compileAll l <;>
        cases hx : compileRegex x <;>
        simp [compileAll, hy, hl, hx, ih]

theorem compileAll_eq_none_of_mem (l : List String) (p : String)
    (hp : p ∈ l) (hc : compileRegex p = none) : compileAll l = none := by
  induction l with
  | nil => cases hp
  | cons y l ih =>
      rcases List.mem_cons.mp hp with h | h
      · subst h
        simp [compileAll, hc]
      · cases hy : compileRegex y <;> simp [compileAll, hy, ih h]

theorem compileAll_length (l : List String) (rs : List Regex)
    (h : compileAll l = some rs) : l.length = rs.length := by
  induction l generalizing rs with
  | nil =>
      simp [compileAll] at h
      subst h
      rfl
  | cons y l ih =>
      cases hy : compileRegex y with
      | none => simp [compileAll, hy] at h
      | some r0 =>
        cases hl : compileAll l with
        | none => simp [compileAll, hy, hl] at h
        | some rs2 =>
          simp [compileAll, hy, hl] at h
          subst h
          simp [ih rs2 hl]

theorem finalizeStep_ok_routes (r : Router) (h : (finalizeStep r).1 = .ok ()) :
    ((finalizeStep r).2).routes = compileAll r.route_list := by
  by_cases hl : r.route_list.length = 0
  · exfalso
    simp [finalizeStep, hl] at h
  · cases hc : compileAll r.route_list with
    | none =>
        exfalso
        simp [finalizeStep, hl, hc] at h
    | some set => simp [finalizeStep, hl, hc]

/-! ### Claim C1 — first matched index only, no verb-driven continuation -/

def builderC1 : Router := (Router.new.add_route .Get "a" 0).add_route .Post "ab" 1

def routerC1 : Router := (finalizeStep builderC1).2

/-- C1, counterexample. Routes: index 0 = (`GET`, `"a"`, handler 0),
index 1 = (`POST`, `"ab"`, handler 1). The request `POST "ab"` is matched by
both patterns, and the handler map has an entry for index 1's pattern with
the request's verb — the claim therefore demands that handler 1 be invoked.
The code instead answers method-not-allowed: it inspects only the first
matched index and never continues to the next candidate. -/
theorem c1_counterexample :
    (finalizeStep builderC1).1 = .ok ()
    ∧ handle routerC1 ⟨.Post, "ab", ""⟩ = .not_allowed
    ∧ routerC1.routes =
        some [Regex.char 'a', Regex.concat (.char 'a') (.char 'b')]
    ∧ (Regex.char 'a').is_match "ab" = true
    ∧ (Regex.concat (.char 'a') (.char 'b')).is_match "ab" = true
    ∧ mapGet routerC1.route_map ⟨"ab", .Post⟩ = some 1 := by
  refine ⟨by decide, by decide, by decide, by decide, by decide, by decide⟩

/-- C1, amended. Dispatch considers only the lowest-index pattern matching
the URI: it looks up a handler under that pattern's string paired with the
request's verb, and when that lookup fails it answers method-not-allowed
immediately — even when a later matched index has a handler registered for
the request's verb. -/
theorem c1_first_index_only (r : Router) (req : Request) (set : List Regex)
    (i : Nat) (route : String)
    (hset : r.routes = some set)
    (hfirst : set.findIdx? (fun re => re.is_match req.uriDisplay) = some i)
    (hroute : r.route_list[i]? = some route)
    (hmiss : mapGet r.route_map ⟨route, req.method⟩ = none)
    (hlater : ∃ j re2 route2 hid2, i < j
        ∧ set[j]? = some re2
        ∧ re2.is_match req.uriDisplay = true
        ∧ r.route_list[j]? = some route2
        ∧ mapGet r.route_map ⟨route2, req.method⟩ = some hid2) :
    handle r req = .not_allowed := by
  simp [handle, hset, hfirst, hroute, hmiss]

/-- C1, witness for the amended theorem at the counterexample router. -/
theorem c1_first_index_only_witness :
    handle routerC1 ⟨.Post, "ab", ""⟩ = .not_allowed :=
  c1_first_index_only routerC1 ⟨.Post, "ab", ""⟩
    [Regex.char 'a', Regex.concat (.char 'a') (.char 'b')] 0 "a"
    (by decide) (by decide) (by decide) (by decide)
    ⟨1, Regex.concat (.char 'a') (.char 'b'), "ab", 1,
      by decide, by decide, by decide, by decide, by decide⟩

/-! ### Claim C2 — no anchoring is performed -/

def builderC2 : Router := Router.new.add_route .Get "b" 0

def routerC2 : Router := (finalizeStep builderC2).2

/-- C2, counterexample. The single route is the pattern `"b"`; the request
path is `"ab"`. An anchored (whole-path) match of `"b"` against `"ab"`
fails, so under the claim the route must not be a candidate; the code
nevertheless dispatches to its handler, because the pattern is compiled
verbatim and matched against any substring of the path. -/
theorem c2_counterexample :
    (finalizeStep builderC2).1 = .ok ()
    ∧ routerC2.compiled_list = [Regex.char 'b']
    ∧ anchoredRun (Regex.char 'b') "ab".data = false
    ∧ handle routerC2 ⟨.Get, "ab", ""⟩ = .handler 0 (some ["b"]) := by
  refine ⟨by decide, by decide, by decide, by decide⟩

/-- C2, amended. `finalize` performs no anchoring: the stored set is the
verbatim compilation of the registered pattern strings, and the candidate
test `is_match` holds exactly when the pattern matches some substring
(infix) of the URI in full — a proper substring suffices. -/
theorem c2_no_anchoring (r : Router) (h : (finalizeStep r).1 = .ok ()) :
    ((finalizeStep r).2).routes = compileAll r.route_list
    ∧ ∀ (re : Regex) (s : String),
        re.is_match s = true ↔ ∃ mid, mid <:+: s.data ∧ anchoredRun re mid = true := by
  refine ⟨finalizeStep_ok_routes r h, ?_⟩
  intro re s
  simp only [Regex.is_match, List.any_eq_true, List.mem_tails, List.mem_inits]
  constructor
  · rintro ⟨suf, hsuf, p, hp, hrun⟩
    exact ⟨p, List.infix_iff_prefix_suffix.mpr ⟨suf, hp, hsuf⟩, hrun⟩
  · rintro ⟨mid, hmid, hrun⟩
    obtain ⟨t, hpre, hsuf⟩ := List.infix_iff_prefix_suffix.mp hmid
    exact ⟨t, hsuf, mid, hpre, hrun⟩

/-- C2, witness for the amended theorem at the counterexample builder. -/
theorem c2_no_anchoring_witness :
    routerC2.routes = compileAll builderC2.route_list :=
  (c2_no_anchoring builderC2 (by decide)).1

/-! ### Claim C3 — finalize with zero routes fails -/

/-- C3, counterexample. `finalize` on the fresh, route-less router does not
succeed: it returns the `TooFewRoutes` error (the repository's own test
`no_routes` asserts exactly this). -/
theorem c3_counterexample :
    Router.new.route_list = []
    ∧ (finalizeStep Router.new).1 = .error .TooFewRoutes := by
  refine ⟨by decide, by decide⟩

/-- C3, amended. `finalize` on a builder with zero registered routes fails
with `TooFewRoutes` and leaves the router completely unchanged; no router
that always dispatches to the not-found handler is produced. -/
theorem c3_empty_fails (r : Router) (h : r.route_list = []) :
    finalizeStep r = (.error .TooFewRoutes, r) := by
  simp [finalizeStep, h]

/-- C3, witness for the amended theorem at the fresh router. -/
theorem c3_empty_fails_witness :
    finalizeStep Router.new = (.error .TooFewRoutes, Router.new) :=
  c3_empty_fails Router.new rfl

/-! ### Claim C4 — invalid patterns: finalize fails, but registration also
validates -/

def badPatternRouter : Router := Router.new.add_route .Get "/[" 3

/-- C4, counterexample (to the "no validation at registration" half of the
claim). `add_route` does attempt to compile the pattern at registration
time: the syntactically invalid pattern `"/["` is compiled, fails, and is
therefore omitted from the compiled-pattern list — an observable effect of
registration-time validation — while still being recorded in the
pattern-string list and the handler map. -/
theorem c4_counterexample :
    compileRegex "/[" = none
    ∧ badPatternRouter.route_list = ["/["]
    ∧ badPatternRouter.compiled_list = []
    ∧ badPatternRouter.route_map = [(⟨"/[", .Get⟩, 3)] := by
  refine ⟨by decide, by decide, by decide, by decide⟩

/-- C4, amended. `finalize` on a builder whose pattern list contains a
syntactically invalid pattern fails with the pattern-compilation error
`BadSet` and installs no matcher (the `routes` field is untouched);
additionally, `add_route` already attempts compilation at registration
time, dropping the uncompilable pattern from the compiled list
(counterexample above). -/
theorem c4_bad_pattern_fails (r : Router) (p : String)
    (hp : p ∈ r.route_list) (hc : compileRegex p = none) :
    (finalizeStep r).1 = .error .BadSet
    ∧ ((finalizeStep r).2).routes = r.routes := by
  have hlen : ¬ r.route_list.length = 0 := by
    cases hr : r.route_list with
    | nil => rw [hr] at hp; cases hp
    | cons a l => simp [hr]
  have hca := compileAll_eq_none_of_mem r.route_list p hp hc
  constructor
  · simp [finalizeStep, hlen, hca]
  · simp [finalizeStep, hlen, hca]

/-- C4, witness for the amended theorem at the bad-pattern router. -/
theorem c4_bad_pattern_fails_witness :
    (finalizeStep badPatternRouter).1 = .error .BadSet
    ∧ ((finalizeStep badPatternRouter).2).routes = badPatternRouter.routes :=
  c4_bad_pattern_fails badPatternRouter "/[" (by decide) (by decide)

/-! ### Claim C5 — the alignment invariant -/

/-- C5, counterexample. Registering the syntactically invalid pattern
`"/["` breaks the alignment invariant: the pattern-string list grows while
the compiled-pattern list does not, so the structures no longer have
identical length and indices shift against each other. -/
theorem c5_counterexample :
    ¬ aligned badPatternRouter
    ∧ badPatternRouter.route_list.length = 1
    ∧ badPatternRouter.compiled_list.length = 0 := by
  refine ⟨?_, by decide, by decide⟩
  unfold aligned
  decide

/-- C5, amended. A registration whose pattern compiles preserves alignment
(both lists are extended by the same logical route, and aligned routers
have lists of equal length; after a successful `finalize` the stored set is
exactly the compiled list); a registration with an invalid pattern breaks
the invariant, as the counterexample shows. -/
theorem c5_alignment (r : Router) (verb : Method) (route : String) (p : Regex)
    (hid : Nat) (ha : aligned r) (hc : compileRegex route = some p) :
    aligned (r.add_route verb route hid)
    ∧ (r.add_route verb route hid).route_list = r.route_list ++ [route]
    ∧ (r.add_route verb route hid).compiled_list = r.compiled_list ++ [p]
    ∧ r.route_list.length = r.compiled_list.length
    ∧ ((finalizeStep r).1 = .ok () →
        ((finalizeStep r).2).routes = some r.compiled_list) := by
  have h2 : (r.add_route verb route hid).route_list = r.route_list ++ [route] := by
    simp [Router.add_route]
  have h3 : (r.add_route verb route hid).compiled_list = r.compiled_list ++ [p] := by
    simp [Router.add_route, hc]
  refine ⟨?_, h2, h3, compileAll_length _ _ ha, ?_⟩
  · unfold aligned at ha ⊢
    rw [h2, h3, compileAll_snoc, ha, hc]
  · intro hok
    rw [finalizeStep_ok_routes r hok, ha]

/-- C5, witness for the amended theorem: a fresh router extended by one
valid route is aligned. -/
theorem c5_alignment_witness :
    aligned (Router.new.add_route .Get "a" 5) :=
  (c5_alignment Router.new .Get "a" (Regex.char 'a') 5 (by unfold aligned; decide)
    (by decide)).1

/-! ### Claim C6 — captures handed to the invoked handler -/

def builderC6 : Router := Router.new.add_route .Get "a" 0

def routerC6 : Router := (finalizeStep builderC6).2

/-- C6, counterexample. The single pattern `"a"` has no capturing groups
and matches the request path `"a"`. The claim demands `Captures = none`
for a pattern without capturing groups; the code instead hands the handler
`some ["a"]` — the full match (slot 0) is always present once the pattern
matches. -/
theorem c6_counterexample :
    routerC6.compiled_list.map Regex.maxGroup = [0]
    ∧ handle routerC6 ⟨.Get, "a", ""⟩ = .handler 0 (some ["a"]) := by
  refine ⟨by decide, by decide⟩

/-- C6, amended. The captures handed to the invoked handler are exactly the
result of re-applying the matched index's individually compiled pattern to
the URI: slot 0 (the full match) first, then one slot per capture group.
`Captures = none` is passed only when the re-applied pattern matches
nowhere; when it matches and every slot participates the handler receives
all slot values; when a slot did not participate, dispatch panics. -/
theorem c6_captures (r : Router) (req : Request) (set : List Regex) (i : Nat)
    (route : String) (hid : Nat) (re : Regex)
    (hset : r.routes = some set)
    (hfirst : set.findIdx? (fun re2 => re2.is_match req.uriDisplay) = some i)
    (hroute : r.route_list[i]? = some route)
    (hmap : mapGet r.route_map ⟨route, req.method⟩ = some hid)
    (hre : r.compiled_list[i]? = some re) :
    handle r req =
      (match get_captures re req.uriDisplay with
       | some caps => .handler hid caps
       | none => .panic)
    ∧ (rustCaptures re req.uriDisplay = none →
        get_captures re req.uriDisplay = some none)
    ∧ (∀ slots, rustCaptures re req.uriDisplay = some slots →
        (∃ full rest2, slots = some full :: rest2)
        ∧ slots.length = re.maxGroup + 1
        ∧ (slots.all Option.isSome = true →
            get_captures re req.uriDisplay = some (some (slots.filterMap id)))
        ∧ (slots.all Option.isSome = false →
            get_captures re req.uriDisplay = none)) := by
  refine ⟨?_, ?_, ?_⟩
  · simp [handle, hset, hfirst, hroute, hmap, hre]
  · intro hnone
    simp [get_captures, hnone]
  · intro slots hs
    have hstruct : ∃ full rest2, slots = some full :: rest2
        ∧ slots.length = re.maxGroup + 1 := by
      unfold rustCaptures at hs
      cases hl : leftmostRun re req.uriDisplay.data with
      | none => rw [hl] at hs; cases hs
      | some pr =>
          rw [hl] at hs
          obtain ⟨full, caps⟩ := pr
          injection hs with hs2
          refine ⟨String.mk full, _, hs2.symm, ?_⟩
          rw [← hs2]
          simp
    obtain ⟨full, rest2, hcons, hlen⟩ := hstruct
    refine ⟨⟨full, rest2, hcons⟩, hlen, ?_, ?_⟩
    · intro hall
      simp [get_captures, hs, hall]
    · intro hall
      simp [get_captures, hs, hall]

def builderEx : Router :=
  (Router.new.add_route .Get "/(\\d+)" 0).add_route .Post "/body" 1

def routerEx : Router := (finalizeStep builderEx).2

/-- C6, witness for the amended theorem at the specification's own worked
example: `GET /(\d+)` and request `GET /42`. -/
theorem c6_captures_witness :
    handle routerEx ⟨.Get, "/42", ""⟩ =
      (match get_captures
          (Regex.concat (.char '/') (.group 1 (.concat .digit (.star .digit))))
          (Request.uriDisplay ⟨.Get, "/42", ""⟩) with
       | some caps => DispatchResult.handler 0 caps
       | none => DispatchResult.panic) :=
  (c6_captures routerEx ⟨.Get, "/42", ""⟩ routerEx.compiled_list 0 "/(\\d+)" 0
    (Regex.concat (.char '/') (.group 1 (.concat .digit (.star .digit))))
    (by decide) (by decide) (by decide) (by decide) (by decide)).1

/-! ### Claim C7 — duplicate pattern+verb registrations -/

def builderC7 : Router := (Router.new.add_route .Get "a" 10).add_route .Get "a" 20

def routerC7 : Router := (finalizeStep builderC7).2

/-- C7, counterexample. The same pattern `"a"` with the same verb `GET` is
registered twice, first with handler 10 and then with handler 20. Both
entries survive in the pattern-string list, but dispatch of `GET "a"`
invokes handler 20: the handler map is keyed by (pattern, verb), so the
later insertion overwrote the earlier handler, contradicting the claim
that the earlier handler wins. -/
theorem c7_counterexample :
    routerC7.route_list = ["a", "a"]
    ∧ handle routerC7 ⟨.Get, "a", ""⟩ = .handler 20 (some ["a"]) := by
  refine ⟨by decide, by decide⟩

/-- C7, amended. Both registrations remain in the pattern-string list as
separate match candidates, but the handler map is keyed by the exact
(pattern, verb) pair, so the later registration overwrites the earlier
handler: the lookup dispatch performs yields the most recently registered
handler. -/
theorem c7_last_insert_wins (r : Router) (verb : Method) (route : String)
    (h1 h2 : Nat) :
    mapGet ((r.add_route verb route h1).add_route verb route h2).route_map
        ⟨route, verb⟩ = some h2
    ∧ ((r.add_route verb route h1).add_route verb route h2).route_list
        = r.route_list ++ [route, route] := by
  constructor
  · simp [Router.add_route, mapGet]
  · simp [Router.add_route]

/-! ### Claim C8 — the matched string is the full displayed URI -/

def builderC8 : Router := Router.new.add_route .Get "x=1" 0

def routerC8 : Router := (finalizeStep builderC8).2

/-- C8, counterexample. The single pattern is `"x=1"`. Two `GET` requests
share the path `"/foo"` and differ only in the query string: with query
`"?x=1"` the route's handler is invoked, without it the not-found handler
runs — the query string participates in matching, so the two requests do
not match the same set of routes. -/
theorem c8_counterexample :
    handle routerC8 ⟨.Get, "/foo", "?x=1"⟩ = .handler 0 (some ["x=1"])
    ∧ handle routerC8 ⟨.Get, "/foo", ""⟩ = .notFound .default_not_found := by
  refine ⟨by decide, by decide⟩

/-- C8, amended. The string tested against the patterns is the display form
of the request URI — the path immediately followed by the query string —
so dispatch treats a request exactly like one whose path is the whole
displayed URI and whose query is empty. -/
theorem c8_full_uri_matched (r : Router) (m : Method) (p q : String) :
    handle r ⟨m, p, q⟩ = handle r ⟨m, p ++ q, ""⟩ := by
  have h : (⟨m, p ++ q, ""⟩ : Request).uriDisplay
      = (⟨m, p, q⟩ : Request).uriDisplay := by
    simp [Request.uriDisplay]
  simp only [handle, h]

/-! ### Claim C9 — dispatch can panic after a successful finalize -/

def builderC9 : Router := Router.new.add_route .Get "(a)|(b)" 0

def routerC9 : Router := (finalizeStep builderC9).2

/-- C9. The pattern `(a)|(b)` compiles, `finalize` succeeds, and the path
`"a"` matches it, with capture slot 2 not participating in the match.
`get_captures` unwraps every capture slot, so dispatch panics instead of
producing a response — the claim that dispatch never fails after a
successful finalize is violated by the code. -/
theorem c9_dispatch_panics :
    (finalizeStep builderC9).1 = .ok ()
    ∧ routerC9.compiled_list
        = [Regex.alt (.group 1 (.char 'a')) (.group 2 (.char 'b'))]
    ∧ rustCaptures (Regex.alt (.group 1 (.char 'a')) (.group 2 (.char 'b'))) "a"
        = some [some "a", some "a", none]
    ∧ handle routerC9 ⟨.Get, "a", ""⟩ = .panic := by
  refine ⟨by decide, by decide, by decide, by decide⟩

/-! ### Claim C10 — dispatch before a successful finalize panics -/

/-- C10. On any router whose `RegexSet` field is still `None` — the state
`Router::new` produces, which `add_route` and `add_not_found` preserve and
which every failing `finalize` leaves in place, i.e. exactly "finalize has
never succeeded" — `handle` unwraps that field unconditionally and
panics on every request (before ever reaching the not-found unwrap, which
is likewise `None` on a fresh router). -/
theorem c10_handle_before_finalize (r : Router) (req : Request)
    (h : r.routes = none) :
    handle r req = .panic
    ∧ Router.new.routes = none
    ∧ Router.new.not_found = none
    ∧ (∀ verb route hid, (r.add_route verb route hid).routes = none)
    ∧ (∀ f, (r.add_not_found f).routes = none)
    ∧ (∀ e, (finalizeStep r).1 = .error e → ((finalizeStep r).2).routes = none) := by
  refine ⟨?_, rfl, rfl, ?_, ?_, ?_⟩
  · simp [handle, h]
  · intro verb route hid
    exact h
  · intro f
    exact h
  · intro e he
    by_cases hl : r.route_list.length = 0
    · simp only [finalizeStep, hl, if_pos]
      exact h
    · cases hc : compileAll r.route_list with
      | some set =>
          exfalso
          simp [finalizeStep, hl, hc] at he
      | none =>
          simp only [finalizeStep, hl, if_neg, hc]
          exact h

/-- C10, witness: a fresh router panics on dispatch. -/
theorem c10_handle_before_finalize_witness :
    handle Router.new ⟨.Get, "/x", ""⟩ = .panic :=
  (c10_handle_before_finalize Router.new ⟨.Get, "/x", ""⟩ rfl).1

end Reroute
